import Mathlib

/-!
Verification development for the namespace-containers runtime.

The Go sources are shallowly embedded: pure functions become Lean
functions, syscall-backed steps become explicit world parameters
recording each operation's outcome, process environments become
association lists, and fallible Go functions returning a value together
with an error become Except values.  Go standard-library string
primitives (strings.Split, strings.HasPrefix, strconv.Atoi) are embedded
as structurally recursive functions over character lists so that every
definition evaluates inside the kernel.
-/

set_option autoImplicit false
set_option linter.unusedVariables false

deriving instance DecidableEq for Except

namespace Containers

/-! ## Go string primitives -/

/-- strings.Split for a single-character separator: splits around every
occurrence of the separator; the empty string yields one empty part. -/
def splitOnChar (sep : Char) : List Char → List (List Char)
  | [] => [[]]
  | c :: cs =>
    if c = sep then [] :: splitOnChar sep cs
    else
      match splitOnChar sep cs with
      | [] => [[c]]
      | h :: t => (c :: h) :: t

/-- strings.Split s sep for a one-character separator, on Lean strings. -/
def goSplit (s : String) (sep : Char) : List String :=
  (splitOnChar sep s.toList).map String.mk

/-- strings.HasPrefix. -/
def goHasPre (s pre : String) : Bool :=
  pre.toList.isPrefixOf s.toList

/-- Value of a non-empty all-digit character sequence, accumulating
left to right. -/
def digitsValAux : Nat → List Char → Option Nat
  | acc, [] => some acc
  | acc, c :: cs => if c.isDigit then digitsValAux (acc * 10 + (c.toNat - 48)) cs else none

/-- Digits of a decimal literal: none if empty or any non-digit. -/
def digitsVal : List Char → Option Nat
  | [] => none
  | cs => digitsValAux 0 cs

/-- strconv.Atoi: optional sign, decimal digits, 64-bit range check.
Any failure (empty digits, non-digit, out of range) is an error. -/
def goAtoi (s : String) : Except String Int :=
  let (neg, ds) :=
    match s.toList with
    | '-' :: r => (true, r)
    | '+' :: r => (false, r)
    | r => (false, r)
  match digitsVal ds with
  | none => .error ("invalid syntax: " ++ s)
  | some n =>
    let v : Int := if neg then -(n : Int) else (n : Int)
    if v < -(2 ^ 63) || 2 ^ 63 - 1 < v then .error ("value out of range: " ++ s)
    else .ok v

/-! ## Data model (source part_000) -/

/-- Mount represents a bind mount from host to container
(source part_000, lines 21-26). -/
structure Mount where
  Source : String
  Destination : String
  ReadOnly : Bool
deriving DecidableEq, Repr

/-- ContainerConfig holds configuration for the container
(source part_000, lines 10-19). -/
structure ContainerConfig where
  Hostname : String
  RootFS : String
  Mounts : List Mount
  NetworkCIDR : String
  HostIP : String
  ContainerIP : String
  Command : List String
deriving DecidableEq, Repr

/-- NewDefaultConfig returns a configuration with sensible defaults
(source part_000, lines 28-38).  The command field starts empty. -/
def NewDefaultConfig : ContainerConfig :=
  { Hostname := "container"
    RootFS := "./namespace_fs"
    NetworkCIDR := "192.168.1.0/24"
    HostIP := "192.168.1.1"
    ContainerIP := "192.168.1.2"
    Mounts := []
    Command := [] }

/-- parsePID converts a string to a PID: strconv.Atoi followed by a
positivity check (source utils.go, lines 36-46). -/
def parsePID (s : String) : Except String Int :=
  match goAtoi s with
  | .error _ => .error ("invalid PID: " ++ s)
  | .ok pid =>
    if pid ≤ 0 then .error ("PID must be positive: " ++ toString pid)
    else .ok pid

/-- parseMount parses a mount string in the format
host_path:container_path with an optional :ro third field
(source part_000, lines 109-127). -/
def parseMount (mountStr : String) : Except String Mount :=
  let parts := goSplit mountStr ':'
  if parts.length < 2 || parts.length > 3 then
    .error "mount format should be host_path:container_path[:ro]"
  else
    let mount : Mount := { Source := parts[0]!, Destination := parts[1]!, ReadOnly := false }
    if parts.length == 3 && parts[2]! == "ro" then
      .ok { mount with ReadOnly := true }
    else
      .ok mount

/-- The amended mount-parsing specification: two colon-separated parts
give a read-write mount, three parts give a mount that is read-only
exactly when the third part is the literal ro, and any other number of
parts is a parse error.  Written from the amended claim wording, to be
compared with parseMount. -/
def mountShape (mountStr : String) : Except String Mount :=
  match goSplit mountStr ':' with
  | [a, b] => .ok { Source := a, Destination := b, ReadOnly := false }
  | [a, b, c] => .ok { Source := a, Destination := b, ReadOnly := c == "ro" }
  | _ => .error "mount format should be host_path:container_path[:ro]"

/-- ParseMemorySize converts human-readable memory sizes to byte strings
(source cgroups.go, lines 131-149).  The Go code slices off the final
byte; on the ASCII suffixes it compares against, this agrees with
dropping the final character. -/
def ParseMemorySize (size : String) : Except String String :=
  if size = "" then .ok ""
  else
    let suffix := size.takeRight 1
    if suffix = "K" || suffix = "k" then .ok (size.dropRight 1 ++ "000")
    else if suffix = "M" || suffix = "m" then .ok (size.dropRight 1 ++ "000000")
    else if suffix = "G" || suffix = "g" then .ok (size.dropRight 1 ++ "000000000")
    else .ok size

/-! ## Env bridge (source part_001) -/

/-- os.Getenv over the environment the child receives.  exec deduplicates
repeated keys keeping the last binding, so lookup returns the value of
the last binding of the key, or the empty string when the key is
unset. -/
def getenv (env : List (String × String)) (key : String) : String :=
  match env.reverse.find? (fun p => p.1 == key) with
  | some p => p.2
  | none => ""

/-- The environment RunContainer builds for the child (source part_001,
lines 36-57), appended after the inherited base environment: the five
scalar fields, one SOURCE/DEST/READONLY triple per mount, and finally
CONTAINER_MOUNT_COUNT holding the mount count — unconditionally, also
when the count is zero. -/
def childEnv (base : List (String × String)) (c : ContainerConfig) : List (String × String) :=
  base
  ++ [("CONTAINER_HOSTNAME", c.Hostname),
      ("CONTAINER_ROOTFS", c.RootFS),
      ("CONTAINER_NETWORK_CIDR", c.NetworkCIDR),
      ("CONTAINER_HOST_IP", c.HostIP),
      ("CONTAINER_CONTAINER_IP", c.ContainerIP)]
  ++ (c.Mounts.enum.map (fun p =>
        [("CONTAINER_MOUNT_" ++ toString p.1 ++ "_SOURCE", p.2.Source),
         ("CONTAINER_MOUNT_" ++ toString p.1 ++ "_DEST", p.2.Destination),
         ("CONTAINER_MOUNT_" ++ toString p.1 ++ "_READONLY",
          if p.2.ReadOnly then "true" else "false")])).flatten
  ++ [("CONTAINER_MOUNT_COUNT", toString c.Mounts.length)]

/-- configFromEnv reconstructs container configuration from environment
variables (source part_001, lines 164-198).  The mount count is parsed
with parsePID, which rejects zero and negative values. -/
def configFromEnv (env : List (String × String)) : Except String ContainerConfig :=
  let config : ContainerConfig :=
    { Hostname := getenv env "CONTAINER_HOSTNAME"
      RootFS := getenv env "CONTAINER_ROOTFS"
      NetworkCIDR := getenv env "CONTAINER_NETWORK_CIDR"
      HostIP := getenv env "CONTAINER_HOST_IP"
      ContainerIP := getenv env "CONTAINER_CONTAINER_IP"
      Mounts := []
      Command := [] }
  let mountCountStr := getenv env "CONTAINER_MOUNT_COUNT"
  if mountCountStr = "" then .ok config
  else
    match parsePID mountCountStr with
    | .error e => .error ("invalid mount count: " ++ e)
    | .ok mountCount =>
      .ok { config with
            Mounts := (List.range mountCount.toNat).map (fun i =>
              { Source := getenv env ("CONTAINER_MOUNT_" ++ toString i ++ "_SOURCE")
                Destination := getenv env ("CONTAINER_MOUNT_" ++ toString i ++ "_DEST")
                ReadOnly :=
                  getenv env ("CONTAINER_MOUNT_" ++ toString i ++ "_READONLY") == "true" }) }

/-- The configuration configFromEnv produces from an environment carrying
k mounts: scalar fields read verbatim, and for each index below k a
mount whose source and destination are the raw (possibly empty) variable
values and which is read-only exactly when the READONLY variable is the
literal true.  The command always travels over argv, never over the
environment, so it is empty here. -/
def envConfig (env : List (String × String)) (k : Nat) : ContainerConfig :=
  { Hostname := getenv env "CONTAINER_HOSTNAME"
    RootFS := getenv env "CONTAINER_ROOTFS"
    NetworkCIDR := getenv env "CONTAINER_NETWORK_CIDR"
    HostIP := getenv env "CONTAINER_HOST_IP"
    ContainerIP := getenv env "CONTAINER_CONTAINER_IP"
    Mounts := (List.range k).map (fun i =>
      { Source := getenv env ("CONTAINER_MOUNT_" ++ toString i ++ "_SOURCE")
        Destination := getenv env ("CONTAINER_MOUNT_" ++ toString i ++ "_DEST")
        ReadOnly := getenv env ("CONTAINER_MOUNT_" ++ toString i ++ "_READONLY") == "true" })
    Command := [] }

/-- A configuration with two mounts, used to exercise the environment
round trip on a nonempty mount list. -/
def twoMountConfig : ContainerConfig :=
  { NewDefaultConfig with
    Mounts := [{ Source := "/home/u/code", Destination := "/app", ReadOnly := false },
               { Source := "/tmp", Destination := "/tmp", ReadOnly := true }] }

/-- The environment used as the C10 witness input: a mount count of two,
only the first source and a non-true READONLY set. -/
def witnessEnv : List (String × String) :=
  [("CONTAINER_MOUNT_COUNT", "2"),
   ("CONTAINER_MOUNT_0_SOURCE", "/src"),
   ("CONTAINER_MOUNT_1_READONLY", "yes")]

/-! ## Command-line flag parsing (source part_000 and the Go flag
package, whose Parse loop ParseFlags delegates to) -/

/-- The mutable state held by the flag set in ParseFlags: one string
variable per defined flag (defaults from NewDefaultConfig, source
part_000, lines 46-53) plus the repeatable multiString mount flag. -/
structure FlagValues where
  hostname : String
  rootfs : String
  network : String
  hostIP : String
  containerIP : String
  mounts : List String
deriving DecidableEq, Repr

/-- The flag defaults ParseFlags installs before parsing. -/
def defaultFlagValues : FlagValues :=
  { hostname := "container"
    rootfs := "./namespace_fs"
    network := "192.168.1.0/24"
    hostIP := "192.168.1.1"
    containerIP := "192.168.1.2"
    mounts := [] }

/-- Whether a name is one of the six flags ParseFlags defines. -/
def isDefinedFlag (name : String) : Bool :=
  name == "hostname" || name == "rootfs" || name == "network"
  || name == "host-ip" || name == "container-ip" || name == "mount"

/-- Record a value for a defined flag.  Every defined flag is a string
flag whose Set never fails; the mount flag appends to the multiString
list (source part_000, lines 129-139). -/
def setFlagValue (fv : FlagValues) (name value : String) : FlagValues :=
  if name == "hostname" then { fv with hostname := value }
  else if name == "rootfs" then { fv with rootfs := value }
  else if name == "network" then { fv with network := value }
  else if name == "host-ip" then { fv with hostIP := value }
  else if name == "container-ip" then { fv with containerIP := value }
  else if name == "mount" then { fv with mounts := fv.mounts ++ [value] }
  else fv

/-- Split a flag name at the first equals sign after the first
character, as the Go flag package does: name=value forms carry the value
inline. -/
def eqSplit (name : String) : Option (String × String) :=
  match name.toList with
  | [] => none
  | c0 :: rest =>
    match rest.findIdx? (fun c => c == '=') with
    | none => none
    | some i => some (String.mk (c0 :: rest.take i), String.mk (rest.drop (i + 1)))

/-- The Go flag package Parse loop over an argument list.  A token
shorter than two characters or without a leading dash stops parsing
(the rest become ignored positional arguments), a bare double dash
terminates, bad syntax and undefined or value-less flags are errors
(under ExitOnError the process exits; modeled as the error), and a
defined flag takes its value either inline after an equals sign or from
the next token. -/
def parseArgs (fv : FlagValues) : List String → Except String FlagValues
  | [] => .ok fv
  | s :: rest =>
    if s.length < 2 || !goHasPre s "-" then .ok fv
    else if s == "--" then .ok fv
    else
      let numMinuses := if goHasPre s "--" then 2 else 1
      let name := s.drop numMinuses
      if name == "" || goHasPre name "-" || goHasPre name "=" then
        .error ("bad flag syntax: " ++ s)
      else
        match eqSplit name with
        | some (fname, value) =>
          if isDefinedFlag fname then parseArgs (setFlagValue fv fname value) rest
          else if fname == "help" || fname == "h" then .error "flag: help requested"
          else .error ("flag provided but not defined: -" ++ fname)
        | none =>
          if isDefinedFlag name then
            match rest with
            | [] => .error ("flag needs an argument: -" ++ name)
            | v :: rest2 => parseArgs (setFlagValue fv name v) rest2
          else if name == "help" || name == "h" then .error "flag: help requested"
          else .error ("flag provided but not defined: -" ++ name)

/-- The mount-option loop of ParseFlags (source part_000, lines 81-88):
parse each collected mount string, failing on the first invalid one. -/
def parseMountFlags : List String → Except String (List Mount)
  | [] => .ok []
  | s :: ss =>
    match parseMount s with
    | .error e => .error ("invalid mount specification " ++ s ++ ": " ++ e)
    | .ok m =>
      match parseMountFlags ss with
      | .error e => .error e
      | .ok ms => .ok (m :: ms)

/-- The command-start scan of ParseFlags (source part_000, lines 56-62):
the index of the first token without a leading dash, left at zero when
every token has one. -/
def commandStart (args : List String) : Nat :=
  (args.findIdx? (fun a => !goHasPre a "-")).getD 0

/-- The tail of ParseFlags common to both branches of the command-start
split (source part_000, lines 74-106): copy the flag values into the
config, parse the collected mount options, inject the default
working-directory mount when none were given, and reject an empty
command. -/
def buildFromFlags (cwd : Option String) (fv : FlagValues) (command : List String) :
    Except String ContainerConfig :=
  match parseMountFlags fv.mounts with
  | .error e => .error e
  | .ok mounts =>
    let mounts :=
      if mounts.isEmpty then
        match cwd with
        | some dir => [{ Source := dir, Destination := "/app", ReadOnly := false }]
        | none => []
      else mounts
    if command.isEmpty then .error "no command specified"
    else
      .ok { Hostname := fv.hostname
            RootFS := fv.rootfs
            Mounts := mounts
            NetworkCIDR := fv.network
            HostIP := fv.hostIP
            ContainerIP := fv.containerIP
            Command := command }

/-- ParseFlags parses command line flags and returns a configured
ContainerConfig (source part_000, lines 41-107).  When the command-start
scan stays at zero the whole argument vector becomes the command and no
flag parsing happens; otherwise the tokens before the command start are
fed to the flag parser.  The working directory used for the default
mount is passed as an Option, none standing for an os.Getwd failure, in
which case no default mount is injected. -/
def ParseFlags (cwd : Option String) (args : List String) : Except String ContainerConfig :=
  let cs := commandStart args
  if cs = 0 then buildFromFlags cwd defaultFlagValues args
  else
    match parseArgs defaultFlagValues (args.take cs) with
    | .error e => .error ("failed to parse flags: " ++ e)
    | .ok fv => buildFromFlags cwd fv (args.drop cs)

/-! ## Cgroups (source cgroups.go) -/

/-- CgroupConfig holds cgroup configuration options (source cgroups.go,
lines 19-26). -/
structure CgroupConfig where
  Name : String
  MaxPids : String
  MemoryLimit : String
  CPUQuota : String
  CPUPeriod : String
deriving DecidableEq, Repr

/-- NewDefaultCgroupConfig returns a cgroup config with sensible
defaults (source cgroups.go, lines 28-37). -/
def NewDefaultCgroupConfig : CgroupConfig :=
  { Name := "namespace_test"
    MaxPids := "max"
    MemoryLimit := ""
    CPUQuota := ""
    CPUPeriod := "100000" }

/-- Outcomes of the filesystem operations SetupCgroups performs: whether
stat reports the cgroup directory missing, whether creating it succeeds,
which control files exist under the group directory, and which writes to
them succeed. -/
structure CgWorld where
  dirMissing : Bool
  mkdirOk : Bool
  fileExists : String → Bool
  writeOk : String → String → Bool

/-- setCgroupValue writes a value to a cgroup control file (source
cgroups.go, lines 91-106): a file that does not exist is silently
skipped, any other write failure is an error. -/
def setCgroupValue (w : CgWorld) (filename value : String) : Option String :=
  if !w.fileExists filename then none
  else if w.writeOk filename value then none
  else some ("failed to write to " ++ filename)

/-- SetupCgroups creates and configures cgroups for the container
(source cgroups.go, lines 39-77), joining the group as the given pid. -/
def SetupCgroups (w : CgWorld) (config : CgroupConfig) (pid : Nat) : Option String :=
  if w.dirMissing && !w.mkdirOk then some "failed to create cgroup directory"
  else
    match setCgroupValue w "pids.max" config.MaxPids with
    | some e => some ("failed to set pids.max: " ++ e)
    | none =>
      match
        if config.MemoryLimit == "" then none
        else setCgroupValue w "memory.max" config.MemoryLimit with
      | some e => some ("failed to set memory.max: " ++ e)
      | none =>
        match
          if config.CPUQuota == "" then none
          else setCgroupValue w "cpu.max" (config.CPUQuota ++ " " ++ config.CPUPeriod) with
        | some e => some ("failed to set cpu.max: " ++ e)
        | none =>
          match setCgroupValue w "cgroup.procs" (toString pid) with
          | some e => some ("failed to add process to cgroup: " ++ e)
          | none => none

/-- The control-file writes SetupCgroups performs for a given config and
pid, in order: pids.max always, memory.max and cpu.max only when the
corresponding limit is set, and finally cgroup.procs. -/
def cgroupWrites (config : CgroupConfig) (pid : Nat) : List (String × String) :=
  [("pids.max", config.MaxPids)]
  ++ (if config.MemoryLimit == "" then [] else [("memory.max", config.MemoryLimit)])
  ++ (if config.CPUQuota == "" then []
      else [("cpu.max", config.CPUQuota ++ " " ++ config.CPUPeriod)])
  ++ [("cgroup.procs", toString pid)]

/-! ## Filesystem setup (source filesystem.go) -/

/-- The in-namespace filesystem operations SetupFilesystem performs, in
the order the source attempts them. -/
inductive FsEvent where
  | bindMount (src dst : String) (ro : Bool)
  | setHostname (h : String)
  | chroot (path : String)
  | chdir (path : String)
  | writeDNS
  | mountProc
  | mountDevpts
deriving DecidableEq, Repr

/-- Outcomes of the syscalls behind SetupFilesystem: existence of bind
sources, success of mount-point creation, of each bind mount and
read-only remount, and of the fixed later steps. -/
structure FsWorld where
  statSourceExists : String → Bool
  mkdirOk : String → Bool
  bindMountOk : String → String → Bool
  remountOk : String → Bool
  sethostnameOk : Bool
  chrootOk : Bool
  chdirOk : Bool
  mkdirEtcOk : Bool
  writeResolvOk : Bool
  mountProcOk : Bool
  mountDevptsOk : Bool

/-- createBindMount creates a single bind mount (source filesystem.go,
lines 82-114): verify the source exists, create the mount point under
the root (filepath.Join modeled as string concatenation), bind mount,
and remount read-only when requested. -/
def createBindMount (w : FsWorld) (rootfs : String) (m : Mount) : Option String :=
  if !w.statSourceExists m.Source then some ("source path does not exist: " ++ m.Source)
  else
    let mountPoint := rootfs ++ "/" ++ m.Destination
    if !w.mkdirOk mountPoint then some ("failed to create mount point " ++ mountPoint)
    else if !w.bindMountOk m.Source mountPoint then some "failed to bind mount"
    else if m.ReadOnly && !w.remountOk mountPoint then some "failed to remount as read-only"
    else none

/-- Run a list of steps, each an optional error paired with the event it
performs on success: the trace collects the events of completed steps in
order, and the first failing step aborts all later ones. -/
def runSteps : List (Option String × FsEvent) → List FsEvent × Option String
  | [] => ([], none)
  | (r, e) :: rest =>
    match r with
    | some err => ([], some err)
    | none =>
      let p := runSteps rest
      (e :: p.1, p.2)

/-- The step list of SetupFilesystem (source filesystem.go, lines
14-52): every bind mount in mount order (with the error wrapping of
setupBindMounts), then hostname, chroot, chdir to the new root, DNS
configuration (directory creation plus the resolv.conf write), the proc
mount and the devpts mount. -/
def fsSteps (w : FsWorld) (config : ContainerConfig) : List (Option String × FsEvent) :=
  config.Mounts.map (fun m =>
    ((createBindMount w config.RootFS m).map (fun e =>
       "failed to setup bind mounts: failed to create bind mount "
       ++ m.Source ++ " -> " ++ m.Destination ++ ": " ++ e),
     .bindMount m.Source m.Destination m.ReadOnly))
  ++ [(if w.sethostnameOk then none else some "failed to set hostname",
       .setHostname config.Hostname),
      (if w.chrootOk then none else some ("failed to chroot to " ++ config.RootFS),
       .chroot config.RootFS),
      (if w.chdirOk then none else some "failed to change directory to /", .chdir "/"),
      (if w.mkdirEtcOk && w.writeResolvOk then none else some "failed to setup DNS", .writeDNS),
      (if w.mountProcOk then none else some "failed to mount proc", .mountProc),
      (if w.mountDevptsOk then none else some "failed to mount devpts", .mountDevpts)]

/-- SetupFilesystem prepares the container filesystem including mounts
(source filesystem.go, lines 14-52), returning the trace of completed
operations and the error of the first failed one, if any. -/
def SetupFilesystem (w : FsWorld) (config : ContainerConfig) : List FsEvent × Option String :=
  runSteps (fsSteps w config)

/-- The complete operation sequence of a fully successful
SetupFilesystem run: all bind mounts in mount order, then hostname, root
change, chdir to the new root, DNS, the proc mount and the devpts
mount. -/
def fullFsSeq (config : ContainerConfig) : List FsEvent :=
  config.Mounts.map (fun m => .bindMount m.Source m.Destination m.ReadOnly)
  ++ [.setHostname config.Hostname, .chroot config.RootFS, .chdir "/", .writeDNS,
      .mountProc, .mountDevpts]

/-! ## Network NAT rules (source network.go) -/

/-- The argument lists of the three iptables invocations of setupNAT
(source network.go, lines 180-208), for the network string derived from
the config CIDR: append the nat POSTROUTING masquerade rule, the FORWARD
source-accept rule and the FORWARD destination-accept rule. -/
def setupNATArgs (net : String) : List (List String) :=
  [["-t", "nat", "-A", "POSTROUTING", "-s", net, "-o", "eth0", "-j", "MASQUERADE"],
   ["-A", "FORWARD", "-s", net, "-j", "ACCEPT"],
   ["-A", "FORWARD", "-d", net, "-j", "ACCEPT"]]

/-- The argument lists of the three iptables invocations of
CleanupNetwork (source network.go, lines 210-224): the same three rules
with the delete operation. -/
def cleanupNetworkArgs (net : String) : List (List String) :=
  [["-t", "nat", "-D", "POSTROUTING", "-s", net, "-o", "eth0", "-j", "MASQUERADE"],
   ["-D", "FORWARD", "-s", net, "-j", "ACCEPT"],
   ["-D", "FORWARD", "-d", net, "-j", "ACCEPT"]]

/-- Both setupNAT and CleanupNetwork first run the config CIDR through
net.ParseCIDR and take the network portion; the host CIDR parser is
passed in abstractly.  setupNAT issues its commands only on a parseable
CIDR. -/
def setupNATCmds (parseCIDR : String → Option String) (config : ContainerConfig) :
    Option (List (List String)) :=
  (parseCIDR config.NetworkCIDR).map setupNATArgs

/-- CleanupNetwork issues its deletion commands only on a parseable
CIDR, returning early otherwise (source network.go, lines 212-215). -/
def CleanupNetworkCmds (parseCIDR : String → Option String) (config : ContainerConfig) :
    Option (List (List String)) :=
  (parseCIDR config.NetworkCIDR).map cleanupNetworkArgs

/-- The portion of host iptables state the runtime touches: the rules of
the nat-table POSTROUTING chain and of the filter-table FORWARD chain,
each rule kept as its matcher argument list in chain order. -/
structure IptablesState where
  natPostrouting : List (List String)
  filterForward : List (List String)
deriving DecidableEq, Repr

/-- Interpret one iptables invocation on the modeled state: an append
adds the rule at the end of its chain, a delete removes the first
occurrence of the rule if present and is a no-op otherwise (as iptables
-D with a missing rule changes nothing). -/
def applyIpt (s : IptablesState) (args : List String) : IptablesState :=
  match args with
  | "-t" :: "nat" :: "-A" :: "POSTROUTING" :: rest =>
    { s with natPostrouting := s.natPostrouting ++ [rest] }
  | "-t" :: "nat" :: "-D" :: "POSTROUTING" :: rest =>
    { s with natPostrouting := s.natPostrouting.erase rest }
  | "-A" :: "FORWARD" :: rest => { s with filterForward := s.filterForward ++ [rest] }
  | "-D" :: "FORWARD" :: rest => { s with filterForward := s.filterForward.erase rest }
  | _ => s

/-- Positional rewrite of an append invocation into the matching delete
invocation, leaving everything else (in particular the embedded network
string) untouched. -/
def toDeleteCmd : List String → List String
  | "-t" :: t :: "-A" :: rest => "-t" :: t :: "-D" :: rest
  | "-A" :: rest => "-D" :: rest
  | args => args

/-- A concrete stand-in for the composition of net.ParseCIDR with the
network String method, defined only at the default CIDR (which is
already in canonical network form). -/
def cidrExact : String → Option String :=
  fun s => if s = "192.168.1.0/24" then some "192.168.1.0/24" else none

/-! ## Lifecycle and exit codes (sources part_001 and part_002) -/

/-- Outcome of running the user command with cmd.Run: either the command
fails to start, or it runs and exits with a status code. -/
inductive RunOutcome where
  | startFailed (msg : String)
  | exited (code : Nat)
deriving DecidableEq, Repr

/-- The error cmd.Run reports: none for a clean zero exit, the exec
error when the command cannot start, and an ExitError carrying the
status otherwise. -/
def runErr : RunOutcome → Option String
  | .startFailed msg => some msg
  | .exited 0 => none
  | .exited (c + 1) => some ("exit status " ++ toString (c + 1))

/-- Everything outside the child process that determines its behavior:
the environment it inherited, the cgroup and filesystem operation
outcomes, its pid, whether the app directory exists after the root
change (it only selects the working directory), the user command's
outcome and whether the unmount cleanup succeeds (a cleanup failure is
only logged). -/
structure ChildWorld where
  env : List (String × String)
  cg : CgWorld
  fs : FsWorld
  pid : Nat
  appExists : Bool
  runOutcome : RunOutcome
  cleanupOk : Bool

/-- RunChildProcess runs inside the container namespace (source
part_001, lines 94-139): reconstruct the config from the environment,
set up cgroups with the default cgroup config, set up the filesystem,
run the user command and return its error after best-effort filesystem
cleanup — the returned error is the command's regardless of whether
cleanup succeeded. -/
def RunChildProcess (w : ChildWorld) (command : List String) : Option String :=
  match configFromEnv w.env with
  | .error e => some ("failed to parse container config from environment: " ++ e)
  | .ok config =>
    match SetupCgroups w.cg NewDefaultCgroupConfig w.pid with
    | some e => some ("failed to setup cgroups: " ++ e)
    | none =>
      match (SetupFilesystem w.fs config).2 with
      | some e => some ("failed to setup filesystem: " ++ e)
      | none => runErr w.runOutcome

/-- handleChild (source part_002, lines 63-73): the child process exits
1 when no command was passed or RunChildProcess reports any error, and 0
otherwise. -/
def handleChild (w : ChildWorld) (args : List String) : Nat :=
  if args.isEmpty then 1
  else if (RunChildProcess w args).isSome then 1
  else 0

/-- Host-side operation outcomes for the parent: path existence checks
for validation, directory creation under the rootfs, child spawn
success, the outcome of SetupNetworking as a whole, and the exit code
cmd.Wait reports for the child. -/
structure ParentWorld where
  pathExists : String → Bool
  mkdirOk : String → Bool
  startOk : Bool
  netSetupOk : Bool
  childExit : Nat

/-- validatePath checks that a path is nonempty and exists
(source utils.go, lines 68-79). -/
def validatePath (pw : ParentWorld) (path : String) : Option String :=
  if path = "" then some "path cannot be empty"
  else if !pw.pathExists path then some ("path does not exist: " ++ path)
  else none

/-- validateCommand checks that the command is nonempty with a nonempty
name (source utils.go, lines 81-92). -/
def validateCommand (command : List String) : Option String :=
  if command.isEmpty then some "command cannot be empty"
  else if command.head! = "" then some "command name cannot be empty"
  else none

/-- The mount loop of validateConfig (source part_001, lines 151-159):
every source must exist, every destination must be nonempty. -/
def validateMounts (pw : ParentWorld) (i : Nat) : List Mount → Option String
  | [] => none
  | m :: rest =>
    match validatePath pw m.Source with
    | some e => some ("invalid mount source path for mount " ++ toString i ++ ": " ++ e)
    | none =>
      if m.Destination = "" then
        some ("mount destination cannot be empty for mount " ++ toString i)
      else validateMounts pw (i + 1) rest

/-- validateConfig validates the container configuration
(source part_001, lines 141-162). -/
def validateConfig (pw : ParentWorld) (config : ContainerConfig) : Option String :=
  match validateCommand config.Command with
  | some e => some e
  | none =>
    match validatePath pw config.RootFS with
    | some e => some ("invalid root filesystem path: " ++ e)
    | none => validateMounts pw 0 config.Mounts

/-- The skeleton directories PrepareRootFS ensures under the rootfs
(source filesystem.go, lines 137-145); filepath.Join modeled as string
concatenation. -/
def requiredRootDirs (rootfsPath : String) : List String :=
  [rootfsPath ++ "/proc", rootfsPath ++ "/dev", rootfsPath ++ "/dev/pts",
   rootfsPath ++ "/etc", rootfsPath ++ "/app", rootfsPath ++ "/tmp"]

/-- The directory-creation loop of PrepareRootFS. -/
def prepareDirs (pw : ParentWorld) : List String → Option String
  | [] => none
  | d :: ds =>
    if !pw.mkdirOk d then some ("failed to create directory " ++ d)
    else prepareDirs pw ds

/-- PrepareRootFS ensures the root filesystem exists and carries the
skeleton directories (source filesystem.go, lines 130-154). -/
def PrepareRootFS (pw : ParentWorld) (rootfsPath : String) : Option String :=
  if !pw.pathExists rootfsPath then
    some ("root filesystem path " ++ rootfsPath ++ " does not exist")
  else prepareDirs pw (requiredRootDirs rootfsPath)

/-- RunContainer starts the container (source part_001, lines 14-92):
validate, prepare the rootfs, spawn the child, set up networking
(killing the child on failure), wait for the child and return the wait
error — none exactly when the child exited 0, an ExitError otherwise.
Network cleanup always runs before returning and does not affect the
result. -/
def RunContainer (pw : ParentWorld) (config : ContainerConfig) : Option String :=
  match validateConfig pw config with
  | some e => some ("invalid configuration: " ++ e)
  | none =>
    match PrepareRootFS pw config.RootFS with
    | some e => some ("failed to prepare root filesystem: " ++ e)
    | none =>
      if !pw.startOk then some "failed to start container"
      else if !pw.netSetupOk then some "failed to setup networking"
      else if pw.childExit != 0 then some ("exit status " ++ toString pw.childExit)
      else none

/-- The ExitOnError behavior of flagSet.Parse in the Go flag package: a
help request terminates the process with exit code 0 and any other flag
parse error with exit code 2.  These terminations happen inside Parse
itself, so the error-wrapping branch of ParseFlags for them is dead code
in the running binary.  parseArgs reports a help request with exactly
this one error string, so the classification is exact. -/
def flagExitCode (e : String) : Nat :=
  if e = "flag: help requested" then 0 else 2

/-- handleRun (source part_002, lines 44-61) as the exit code of the run
command.  The flag stage of ParseFlags runs under flag.ExitOnError, so a
flag parse failure terminates the process inside flagSet.Parse with
flagExitCode before ParseFlags can return; the errors ParseFlags does
return (an invalid mount specification, a missing command) exit 1, as
does a RunContainer failure, and a clean run exits 0.  The stages are
the same commandStart, parseArgs and buildFromFlags that make up
ParseFlags, inlined here so the in-parse terminations are visible. -/
def handleRun (pw : ParentWorld) (cwd : Option String) (args : List String) : Nat :=
  let cs := commandStart args
  if cs = 0 then
    match buildFromFlags cwd defaultFlagValues args with
    | .error _ => 1
    | .ok config => if (RunContainer pw config).isSome then 1 else 0
  else
    match parseArgs defaultFlagValues (args.take cs) with
    | .error e => flagExitCode e
    | .ok fv =>
      match buildFromFlags cwd fv (args.drop cs) with
      | .error _ => 1
      | .ok config => if (RunContainer pw config).isSome then 1 else 0

/-- checkRoot verifies that the program is running as root
(source utils.go, lines 28-34), given the effective uid. -/
def checkRoot (euid : Nat) : Option String :=
  if euid ≠ 0 then some "this program must be run as root" else none

/-- The exit code of the whole binary (source part_002, lines 11-73),
applied to os.Args without the leading program name: no arguments print
usage and exit 1; help and version exit 0 before any other check; every
remaining command first requires root and exits 1 without it; run
dispatches to handleRun, child to handleChild, and an unknown command
exits 1. -/
def mainExit (pw : ParentWorld) (cw : ChildWorld) (euid : Nat) (cwd : Option String) :
    List String → Nat
  | [] => 1
  | cmd :: rest =>
    if cmd = "help" ∨ cmd = "--help" ∨ cmd = "-h" then 0
    else if cmd = "version" ∨ cmd = "--version" ∨ cmd = "-v" then 0
    else if (checkRoot euid).isSome then 1
    else if cmd = "run" then handleRun pw cwd rest
    else if cmd = "child" then handleChild cw rest
    else 1

/-- The condition under which the child process exits 0: a command was
passed, the environment config parses, cgroup and filesystem setup
succeed and the user command itself exits 0.  Any other command exit
status makes the child exit 1. -/
def childSucceeds (w : ChildWorld) (args : List String) : Bool :=
  !args.isEmpty &&
  match configFromEnv w.env with
  | .error _ => false
  | .ok config =>
    (SetupCgroups w.cg NewDefaultCgroupConfig w.pid).isNone
    && (SetupFilesystem w.fs config).2.isNone
    && (w.runOutcome == .exited 0)

/-- A child world where every setup operation succeeds and the user
command runs but exits with status 5. -/
def exitFiveWorld : ChildWorld :=
  { env := []
    cg := { dirMissing := false, mkdirOk := true
            fileExists := fun _ => false, writeOk := fun _ _ => true }
    fs := { statSourceExists := fun _ => true, mkdirOk := fun _ => true
            bindMountOk := fun _ _ => true, remountOk := fun _ => true
            sethostnameOk := true, chrootOk := true, chdirOk := true
            mkdirEtcOk := true, writeResolvOk := true
            mountProcOk := true, mountDevptsOk := true }
    pid := 1
    appExists := true
    runOutcome := .exited 5
    cleanupOk := true }

end Containers

namespace Containers

/-! ## Theorems for mount parsing and the memory-size parser -/

/-- C3 counterexample: a three-part mount string whose third part is not
the literal ro is accepted as a read-write mount, not rejected as the
claim states. -/
theorem parseMount_three_part_not_ro_accepted :
    parseMount "a:b:rw" = .ok { Source := "a", Destination := "b", ReadOnly := false }
    ∧ (parseMount "a:b:rw").isOk = true := by
  constructor <;> decide

/-- C3 (amended): parseMount maps a:b to a read-write mount, a:b:ro to
the same mount read-only, errors exactly when the colon-split has fewer
than two or more than three parts, and accepts any three-part input with
a third part other than ro as a read-write mount of the first two
parts. -/
theorem parseMount_eq_mountShape : ∀ s, parseMount s = mountShape s := by
  intro s
  unfold parseMount mountShape
  rcases h : goSplit s ':' with _ | ⟨a, _ | ⟨b, _ | ⟨c, _ | ⟨d, t⟩⟩⟩⟩ <;> simp [h]
  by_cases hc : c = "ro" <;> simp [hc]

/-- C8: the memory-size parser maps 10K to 10000, 2M to 2000000, 3G to
3000000000, leaves a bare number 500 unchanged, and maps the empty
string to itself, using decimal multipliers. -/
theorem ParseMemorySize_examples :
    ParseMemorySize "10K" = .ok "10000"
    ∧ ParseMemorySize "2M" = .ok "2000000"
    ∧ ParseMemorySize "3G" = .ok "3000000000"
    ∧ ParseMemorySize "500" = .ok "500"
    ∧ ParseMemorySize "" = .ok "" := by
  refine ⟨?_, ?_, ?_, ?_, ?_⟩ <;> decide

/-- C9: ParseMemorySize is total and never returns an error, performing
no numeric validation; in particular a non-numeric value before the
suffix is transformed all the same. -/
theorem ParseMemorySize_never_errors :
    (∀ s, (ParseMemorySize s).isOk = true)
    ∧ ParseMemorySize "abcG" = .ok "abc000000000" := by
  constructor
  · intro s
    unfold ParseMemorySize
    dsimp only
    split_ifs <;> rfl
  · decide

/-! ## Theorems for the env bridge -/

/-- C1: the environment round trip is broken for a zero-mount
configuration.  RunContainer always sets CONTAINER_MOUNT_COUNT, so a
config with no mounts serializes the variable as the string 0, which the
child rejects because the count is parsed with the positive-only PID
parser; the round trip errors instead of succeeding.  For a config with
a nonempty mount list the round trip does return the original config
(command excluded: it travels over argv, not the environment). -/
theorem env_roundtrip_zero_mounts_bug :
    getenv (childEnv [] NewDefaultConfig) "CONTAINER_MOUNT_COUNT" = "0"
    ∧ configFromEnv (childEnv [] NewDefaultConfig)
        = .error "invalid mount count: PID must be positive: 0"
    ∧ configFromEnv (childEnv [] twoMountConfig) = .ok twoMountConfig := by
  refine ⟨by decide, by decide, by decide⟩

/-- C10: configFromEnv validates nothing.  When CONTAINER_MOUNT_COUNT is
absent it succeeds with no mounts; when the count parses as a positive
integer it succeeds with exactly that many mounts, reading each SOURCE,
DEST and READONLY variable verbatim — unset variables become empty
strings and any READONLY value other than the literal true yields a
read-write mount. -/
theorem configFromEnv_no_validation (env : List (String × String)) :
    (getenv env "CONTAINER_MOUNT_COUNT" = "" → configFromEnv env = .ok (envConfig env 0))
    ∧ (∀ n : Int, parsePID (getenv env "CONTAINER_MOUNT_COUNT") = .ok n →
        configFromEnv env = .ok (envConfig env n.toNat)) := by
  constructor
  · intro h
    simp [configFromEnv, envConfig, h]
  · intro n h
    by_cases hc : getenv env "CONTAINER_MOUNT_COUNT" = ""
    · rw [hc] at h
      simp [parsePID, goAtoi, digitsVal] at h
    · simp [configFromEnv, envConfig, hc, h]

/-- C10 witness: at a concrete environment with count 2, one source set,
one unset destination and a READONLY value other than true, the
reconstruction succeeds with the described mounts. -/
theorem configFromEnv_no_validation_witness :
    parsePID (getenv witnessEnv "CONTAINER_MOUNT_COUNT") = .ok 2
    ∧ configFromEnv witnessEnv = .ok (envConfig witnessEnv (Int.toNat 2)) :=
  ⟨by decide, (configFromEnv_no_validation witnessEnv).2 2 (by decide)⟩

/-! ## Theorems for flag parsing -/

/-- Ok results are ok. -/
theorem isOk_ok {ε α : Type} (a : α) : (Except.ok a : Except ε α).isOk = true := rfl

/-- Error results are not ok. -/
theorem isOk_error {ε α : Type} (e : ε) : (Except.error e : Except ε α).isOk = false := rfl

/-- toOption of an ok result. -/
theorem toOption_ok {ε α : Type} (a : α) : (Except.ok a : Except ε α).toOption = some a := rfl

/-- toOption of an error. -/
theorem toOption_error {ε α : Type} (e : ε) : (Except.error e : Except ε α).toOption = none := rfl

/-- The mount-option loop succeeds exactly when every collected mount
string parses. -/
theorem parseMountFlags_isOk (l : List String) :
    (parseMountFlags l).isOk = l.all (fun m => (parseMount m).isOk) := by
  induction l with
  | nil => rfl
  | cons s ss ih =>
    simp only [parseMountFlags, List.all_cons]
    cases hp : parseMount s with
    | error e => simp [isOk_error]
    | ok m =>
      cases hr : parseMountFlags ss with
      | error e =>
        rw [hr] at ih
        simp only [isOk_error] at ih
        simp [isOk_ok, isOk_error, ← ih]
      | ok ms =>
        rw [hr] at ih
        simp only [isOk_ok] at ih
        simp [isOk_ok, ← ih]

/-- The common tail succeeds exactly when every mount option parses and
the command is nonempty. -/
theorem buildFromFlags_isOk (cwd : Option String) (fv : FlagValues) (command : List String) :
    (buildFromFlags cwd fv command).isOk
      = (fv.mounts.all (fun m => (parseMount m).isOk) && !command.isEmpty) := by
  rw [← parseMountFlags_isOk]
  unfold buildFromFlags
  cases hr : parseMountFlags fv.mounts with
  | error e => simp [isOk_error]
  | ok ms =>
    by_cases hc : command.isEmpty <;> simp [isOk_ok, isOk_error, hc]

/-- On success the common tail returns exactly the command it was
given. -/
theorem buildFromFlags_command (cwd : Option String) (fv : FlagValues) (command : List String) :
    (buildFromFlags cwd fv command).toOption.map (fun c => c.Command)
      = (buildFromFlags cwd fv command).toOption.map (fun _ => command) := by
  unfold buildFromFlags
  cases hr : parseMountFlags fv.mounts with
  | error e => rfl
  | ok ms =>
    by_cases hc : command.isEmpty <;> simp [hc, toOption_ok, toOption_error]

/-- C2 counterexample: for the argument vector consisting of the single
token -x every token begins with a dash (the command-start scan finds no
command token) and the token is not a well-formed flag, so the claim
demands a parse failure; ParseFlags nevertheless succeeds and captures
the whole vector as the command. -/
theorem ParseFlags_all_dash_accepted :
    (["-x"].findIdx? (fun a => !goHasPre a "-")) = none
    ∧ parseArgs defaultFlagValues ["-x"] = .error "flag provided but not defined: -x"
    ∧ ParseFlags (some "/work") ["-x"]
        = .ok { Hostname := "container"
                RootFS := "./namespace_fs"
                Mounts := [{ Source := "/work", Destination := "/app", ReadOnly := false }]
                NetworkCIDR := "192.168.1.0/24"
                HostIP := "192.168.1.1"
                ContainerIP := "192.168.1.2"
                Command := ["-x"] } := by
  refine ⟨by decide, by decide, by decide⟩

/-- C2 (amended): the captured command is always the suffix of the
argument vector starting at the command-start index (the whole vector
when that index is zero, that is when the first token lacks a leading
dash or no token does); parsing succeeds iff that suffix exists and is
nonempty, the flag parser accepts the tokens before it, and every
collected mount option is well-formed.  When the command start is zero
no token is treated as a flag and success only requires a nonempty
vector. -/
theorem ParseFlags_amended (cwd : Option String) (args : List String) :
    (ParseFlags cwd args).toOption.map (fun c => c.Command)
      = (ParseFlags cwd args).toOption.map (fun _ => args.drop (commandStart args))
    ∧ (ParseFlags cwd args).isOk =
        (if commandStart args = 0 then !args.isEmpty
         else
           match parseArgs defaultFlagValues (args.take (commandStart args)) with
           | .error _ => false
           | .ok fv => fv.mounts.all (fun m => (parseMount m).isOk)) := by
  by_cases hcs : commandStart args = 0
  · rw [hcs]
    constructor
    · have h := buildFromFlags_command cwd defaultFlagValues args
      simpa [ParseFlags, hcs] using h
    · have h := buildFromFlags_isOk cwd defaultFlagValues args
      simp only [defaultFlagValues, List.all_nil, Bool.true_and] at h
      simp [ParseFlags, hcs, defaultFlagValues, h]
  · have hidx : args.findIdx? (fun a => !goHasPre a "-") = some (commandStart args) := by
      unfold commandStart
      cases hf : args.findIdx? (fun a => !goHasPre a "-") with
      | none =>
        exfalso
        apply hcs
        unfold commandStart
        rw [hf]
        rfl
      | some i => rfl
    have hlt : commandStart args < args.length :=
      (List.findIdx?_eq_some_iff_findIdx_eq.mp hidx).1
    have hdrop : (args.drop (commandStart args)).isEmpty = false := by
      rw [List.isEmpty_eq_false_iff_exists_mem]
      have : args.drop (commandStart args) ≠ [] := by
        intro h
        have := List.drop_eq_nil_iff.mp h
        omega
      exact List.exists_mem_of_ne_nil _ this
    constructor
    · unfold ParseFlags
      rw [if_neg hcs]
      cases hp : parseArgs defaultFlagValues (args.take (commandStart args)) with
      | error e => rfl
      | ok fv =>
        have h := buildFromFlags_command cwd fv (args.drop (commandStart args))
        simpa using h
    · unfold ParseFlags
      rw [if_neg hcs]
      cases hp : parseArgs defaultFlagValues (args.take (commandStart args)) with
      | error e => simp [isOk_error, hcs]
      | ok fv =>
        have h := buildFromFlags_isOk cwd fv (args.drop (commandStart args))
        simp [h, hdrop, hcs]

/-! ## Theorems for cgroups -/

/-- A single control-file write succeeds exactly when the file is
missing (silent skip) or the write goes through. -/
theorem setCgroupValue_isNone (w : CgWorld) (f v : String) :
    (setCgroupValue w f v).isNone = (!w.fileExists f || w.writeOk f v) := by
  unfold setCgroupValue
  split_ifs with h1 h2 <;> simp_all

/-- setCgroupValue as a single conditional on whether the file is
missing or the write succeeds. -/
theorem setCgroupValue_eq (w : CgWorld) (f v : String) :
    setCgroupValue w f v =
      if (!w.fileExists f || w.writeOk f v) = true then none
      else some ("failed to write to " ++ f) := by
  unfold setCgroupValue
  split_ifs <;> simp_all

/-- C7: SetupCgroups succeeds exactly when the group directory exists or
can be created and every performed control-file write either targets a
missing file (silently skipped, setup continues) or succeeds; any other
write failure makes SetupCgroups return an error. -/
theorem SetupCgroups_skip_semantics (w : CgWorld) (config : CgroupConfig) (pid : Nat) :
    (SetupCgroups w config pid).isNone =
      ((!w.dirMissing || w.mkdirOk)
       && (cgroupWrites config pid).all (fun p => !w.fileExists p.1 || w.writeOk p.1 p.2)) := by
  have hdir : (w.dirMissing && !w.mkdirOk) = !(!w.dirMissing || w.mkdirOk) := by
    cases w.dirMissing <;> cases w.mkdirOk <;> rfl
  simp only [SetupCgroups, setCgroupValue_eq, cgroupWrites, List.all_append, List.all_cons,
    List.all_nil, hdir]
  split_ifs <;> simp_all <;> cases hb : w.dirMissing <;> simp_all

/-! ## Theorems for filesystem setup -/

/-- The step runner produces a trace that is an initial segment of the
full event sequence and finishes without error exactly when the trace is
the whole sequence. -/
theorem runSteps_spec (steps : List (Option String × FsEvent)) :
    (runSteps steps).1 = (steps.map (fun p => p.2)).take (runSteps steps).1.length
    ∧ ((runSteps steps).2 = none ↔ (runSteps steps).1 = steps.map (fun p => p.2)) := by
  induction steps with
  | nil => simp [runSteps]
  | cons p rest ih =>
    obtain ⟨r, e⟩ := p
    cases r with
    | some err => simp [runSteps]
    | none =>
      simp only [runSteps, List.map_cons, List.length_cons, List.take_succ_cons]
      constructor
      · rw [← ih.1]
      · simp [ih.2]

/-- The events of the SetupFilesystem step list form exactly the full
sequence. -/
theorem fsSteps_events (w : FsWorld) (config : ContainerConfig) :
    (fsSteps w config).map (fun p => p.2) = fullFsSeq config := by
  simp [fsSteps, fullFsSeq]

/-- C6: in every execution of SetupFilesystem the completed operations
form an initial segment of the fixed sequence bind mounts (in mount
order), hostname, root change, chdir, DNS, proc mount, devpts mount —
so all bind mounts precede the root change, the root change precedes the
proc and devpts mounts, and a failure at any step prevents all later
steps; the run succeeds exactly when the whole sequence completed. -/
theorem SetupFilesystem_ordering (w : FsWorld) (config : ContainerConfig) :
    (SetupFilesystem w config).1
        = (fullFsSeq config).take (SetupFilesystem w config).1.length
    ∧ ((SetupFilesystem w config).2 = none
        ↔ (SetupFilesystem w config).1 = fullFsSeq config) := by
  unfold SetupFilesystem
  rw [← fsSteps_events w config]
  exact runSteps_spec (fsSteps w config)

/-! ## Theorems for network rules -/

/-- Erasing the same element on both sides preserves permutation, for
any lawful boolean equality. -/
theorem perm_erase_beq {α : Type} [BEq α] [LawfulBEq α] (a : α) {l₁ l₂ : List α}
    (p : l₁.Perm l₂) : (l₁.erase a).Perm (l₂.erase a) := by
  induction p with
  | nil => simp
  | cons x p ih =>
    rw [List.erase_cons, List.erase_cons]
    by_cases hx : (x == a) = true
    · rw [if_pos hx, if_pos hx]
      assumption
    · rw [if_neg hx, if_neg hx]
      exact ih.cons x
  | swap x y l =>
    simp only [List.erase_cons]
    by_cases hy : (y == a) = true <;> by_cases hx : (x == a) = true
    · have h1 : y = a := eq_of_beq hy
      have h2 : x = a := eq_of_beq hx
      subst h1
      subst h2
      simp
    · simp [hy, hx]
    · simp [hy, hx]
    · simp only [hy, hx, if_false, Bool.false_eq_true]
      exact List.Perm.swap x y (List.erase l a)
  | trans p1 p2 ih1 ih2 => exact ih1.trans ih2

/-- Erasing an element inserted in the middle of a list permutes the
result back to the list without it. -/
theorem perm_erase_append_mid {α : Type} [BEq α] [LawfulBEq α] (l r : List α) (a : α) :
    ((l ++ a :: r).erase a).Perm (l ++ r) := by
  induction l with
  | nil => simp [List.erase_cons_head]
  | cons x xs ih =>
    rw [List.cons_append, List.erase_cons]
    by_cases hx : (x == a) = true
    · rw [if_pos hx]
      have hxa : x = a := eq_of_beq hx
      subst hxa
      exact List.perm_middle
    · rw [if_neg hx]
      exact ih.cons x

/-- Appending an element and erasing it again permutes a list back to
itself, whether or not an equal element was already present. -/
theorem perm_erase_append_one {α : Type} [BEq α] [LawfulBEq α] (l : List α) (a : α) :
    ((l ++ [a]).erase a).Perm l := by
  have h := perm_erase_append_mid l [] a
  simpa using h

/-- Appending two elements and erasing both permutes a list back to
itself. -/
theorem perm_erase_append_two {α : Type} [BEq α] [LawfulBEq α] (l : List α) (a b : α) :
    (((l ++ [a, b]).erase a).erase b).Perm l := by
  have h1 : ((l ++ [a, b]).erase a).Perm (l ++ [b]) := perm_erase_append_mid l [b] a
  have h2 := perm_erase_beq b h1
  exact h2.trans (perm_erase_append_one l b)

/-- C5: for every config whose CIDR parses, CleanupNetwork issues
exactly the deletion counterparts (delete in place of append, same
table, chain and arguments) of the three rules setupNAT installs, and
running setup followed by cleanup returns both touched chains to a
permutation of their original rule lists — the rule set is unchanged,
with deletes of missing rules acting as no-ops. -/
theorem CleanupNetwork_reverses_setupNAT (parseCIDR : String → Option String)
    (config : ContainerConfig) (net : String) (s : IptablesState)
    (h : parseCIDR config.NetworkCIDR = some net) :
    CleanupNetworkCmds parseCIDR config = some ((setupNATArgs net).map toDeleteCmd)
    ∧ setupNATCmds parseCIDR config = some (setupNATArgs net)
    ∧ (((setupNATArgs net ++ cleanupNetworkArgs net).foldl applyIpt s).natPostrouting).Perm
        s.natPostrouting
    ∧ (((setupNATArgs net ++ cleanupNetworkArgs net).foldl applyIpt s).filterForward).Perm
        s.filterForward := by
  refine ⟨?_, ?_, ?_, ?_⟩
  · rw [CleanupNetworkCmds, h]
    rfl
  · rw [setupNATCmds, h]
    rfl
  · show ((s.natPostrouting ++ [["-s", net, "-o", "eth0", "-j", "MASQUERADE"]]).erase
        ["-s", net, "-o", "eth0", "-j", "MASQUERADE"]).Perm s.natPostrouting
    exact perm_erase_append_one s.natPostrouting _
  · show ((((s.filterForward ++ [["-s", net, "-j", "ACCEPT"]]) ++ [["-d", net, "-j", "ACCEPT"]]).erase
        ["-s", net, "-j", "ACCEPT"]).erase ["-d", net, "-j", "ACCEPT"]).Perm s.filterForward
    rw [List.append_assoc]
    exact perm_erase_append_two s.filterForward _ _

/-- C5 witness: at the default config, the identity CIDR parser and
empty chains, setup followed by cleanup leaves both chains unchanged and
the cleanup commands are the deletes of the setup commands. -/
theorem CleanupNetwork_reverses_setupNAT_witness :
    cidrExact NewDefaultConfig.NetworkCIDR = some "192.168.1.0/24"
    ∧ (CleanupNetworkCmds cidrExact NewDefaultConfig
         = some ((setupNATArgs "192.168.1.0/24").map toDeleteCmd)
       ∧ setupNATCmds cidrExact NewDefaultConfig = some (setupNATArgs "192.168.1.0/24")
       ∧ (((setupNATArgs "192.168.1.0/24" ++ cleanupNetworkArgs "192.168.1.0/24").foldl applyIpt
             { natPostrouting := [], filterForward := [] }).natPostrouting).Perm
           ({ natPostrouting := [], filterForward := [] } : IptablesState).natPostrouting
       ∧ (((setupNATArgs "192.168.1.0/24" ++ cleanupNetworkArgs "192.168.1.0/24").foldl applyIpt
             { natPostrouting := [], filterForward := [] }).filterForward).Perm
           ({ natPostrouting := [], filterForward := [] } : IptablesState).filterForward) :=
  ⟨by decide,
   CleanupNetwork_reverses_setupNAT cidrExact NewDefaultConfig "192.168.1.0/24"
     { natPostrouting := [], filterForward := [] } (by decide)⟩

/-! ## Theorems for exit codes -/

/-- C4 counterexample: with every setup step succeeding and the user
command exiting with status 5, the child reports the exit error but the
process exits with code 1, not 5 — the command's exit status is replaced
by a different non-zero code rather than propagated. -/
theorem child_exit_status_not_propagated :
    RunChildProcess exitFiveWorld ["mycmd"] = some "exit status 5"
    ∧ handleChild exitFiveWorld ["mycmd"] = 1
    ∧ (1 : Nat) ≠ 5 := by
  refine ⟨by decide, by decide, by decide⟩

/-- C4 (amended): the child process exits 0 exactly when a command was
passed, configuration parsing and the cgroup and filesystem setup
succeed and the user command exits 0, and exits 1 otherwise — so any
failing user command yields exit code 1 regardless of its own status.
The run command's exit code mirrors RunContainer (0 clean, 1 on any
setup error or non-zero child exit) whenever ParseFlags returns a
config; the configuration errors ParseFlags returns (bad mount
specification, missing command) exit 1, while a malformed flag
terminates the process inside the flag package with exit code 2, and a
help flag with 0.  Without root privilege both the run and the child
command exit 1 before doing anything. -/
theorem exit_codes_amended (w : ChildWorld) (pw : ParentWorld) (cwd : Option String)
    (args pargs : List String) (euid : Nat) :
    handleChild w args = (if childSucceeds w args then 0 else 1)
    ∧ handleRun pw cwd pargs =
        (match ParseFlags cwd pargs with
         | .ok config => if (RunContainer pw config).isSome then 1 else 0
         | .error _ =>
           if commandStart pargs = 0 then 1
           else
             match parseArgs defaultFlagValues (pargs.take (commandStart pargs)) with
             | .error e => flagExitCode e
             | .ok _ => 1)
    ∧ mainExit pw w euid cwd ("run" :: pargs)
        = (if euid = 0 then handleRun pw cwd pargs else 1)
    ∧ mainExit pw w euid cwd ("child" :: args)
        = (if euid = 0 then handleChild w args else 1) := by
  refine ⟨?_, ?_, ?_, ?_⟩
  · unfold handleChild childSucceeds RunChildProcess
    by_cases ha : args.isEmpty <;> simp only [ha, if_true, if_false, Bool.not_true,
      Bool.not_false, Bool.false_and, Bool.true_and]
    · simp
    · cases hc : configFromEnv w.env with
      | error e => simp
      | ok config =>
        cases hg : SetupCgroups w.cg NewDefaultCgroupConfig w.pid with
        | some e => simp
        | none =>
          cases hf : (SetupFilesystem w.fs config).2 with
          | some e => simp [hf]
          | none =>
            cases hr : w.runOutcome with
            | startFailed m => simp [runErr, hf, hr]
            | exited c =>
              cases c with
              | zero => simp [runErr, hf, hr]
              | succ k => simp [runErr, hf, hr]
  · by_cases hcs : commandStart pargs = 0
    · cases hb : buildFromFlags cwd defaultFlagValues pargs with
      | error e => simp [handleRun, ParseFlags, hcs, hb]
      | ok config => simp [handleRun, ParseFlags, hcs, hb]
    · cases hp : parseArgs defaultFlagValues (pargs.take (commandStart pargs)) with
      | error e => simp [handleRun, ParseFlags, hcs, hp]
      | ok fv =>
        cases hb : buildFromFlags cwd fv (pargs.drop (commandStart pargs)) with
        | error e => simp [handleRun, ParseFlags, hcs, hp, hb]
        | ok config => simp [handleRun, ParseFlags, hcs, hp, hb]
  · by_cases he : euid = 0 <;> simp [mainExit, checkRoot, he]
  · by_cases he : euid = 0 <;> simp [mainExit, checkRoot, he]

end Containers
